import Mathlib

/-!
Verification development for the educational-video-player repository.

Shallow embedding of the repository's URL/platform classification helpers,
thumbnail generation, player-state handlers, pagination math and REST error
taxonomy, with theorems checking the specification's claims against them.

Strings are modelled as Lean `String`/`List Char`; JS numbers as `ℚ` (the
claims never depend on floating-point rounding); JS regular-expression
matching over the concrete patterns of the source is modelled by explicit
leftmost-scan functions; the WHATWG `new URL` builtin is modelled by a
simplified hierarchical parser described at its definition.
-/

deriving instance DecidableEq for Except

namespace JsStr

/-- Leftmost-match scan: try the matcher at every position of the list,
left to right, returning the first success (models how a JS regex engine
searches for a match). -/
def scanFor (m : List Char → Option α) : List Char → Option α
  | [] => none
  | c :: rest =>
    match m (c :: rest) with
    | some r => some r
    | none => scanFor m rest

/-- Literal-prefix test (recursing on the pattern first, so it reduces
even when the subject list has an abstract tail). -/
def listPrefixOf (pat cs : List Char) : Bool :=
  match pat, cs with
  | [], _ => true
  | _ :: _, [] => false
  | a :: as, c :: rest => a == c && listPrefixOf as rest

/-- One alternative at one position: on a literal match capture the
maximal nonempty run of characters outside `excl` (regex `lit([^...]+)`). -/
def altAttempt (excl cs alt : List Char) : Option (List Char) :=
  if listPrefixOf alt cs then
    if ((cs.drop alt.length).takeWhile (fun c => !(excl.contains c))).isEmpty then none
    else some ((cs.drop alt.length).takeWhile (fun c => !(excl.contains c)))
  else none

/-- At one position, try each literal alternative in order (regex
alternation `(?:a|b|c)` followed by the capture). -/
def tryAltsAt (alts : List (List Char)) (excl : List Char) (cs : List Char) :
    Option (List Char) :=
  alts.findSome? (altAttempt excl cs)

/-- Characters matched by the JS regex `.` (anything but a line terminator). -/
def jsDotChar (c : Char) : Bool :=
  !(c = '\n' || c = '\r' || c = Char.ofNat 0x2028 || c = Char.ofNat 0x2029)

/-- Greedy `.*v=([^excl]+)` continuation: the largest split point whose
prefix contains no line terminator, followed by the literal `v=` and a
nonempty capture, wins (regex greediness with backtracking). -/
def dotStarVEq (excl : List Char) (cs : List Char) : Option (List Char) :=
  (List.range (cs.length + 1)).reverse.findSome? (fun j =>
    if (cs.take j).all jsDotChar then
      match cs.drop j with
      | 'v' :: '=' :: rest =>
        let cap := rest.takeWhile (fun c => !(excl.contains c))
        if cap.isEmpty then none else some cap
      | _ => none
    else none)

/-- `String.prototype.includes`: substring containment. -/
def jsIncludes (s : String) (sub : String) : Bool :=
  (scanFor (fun cs => if listPrefixOf sub.data cs then some () else none)
    s.data).isSome || sub.data.isEmpty

end JsStr

namespace VideoUtils

/-!
Embedding of the video utility module (`src/unnamed/part_000`): regex-based
YouTube/Vimeo URL detection and platform selection.
-/

open JsStr

/-- The character class `[^&\n?#]` used by every YouTube id capture. -/
def ytExcl : List Char := ['&', '\n', '?', '#']

/-- `extractYouTubeVideoId`: tries, in order, the source's three patterns
`/(?:youtube\.com\/watch\?v=|youtu\.be\/|youtube\.com\/embed\/)([^&\n?#]+)/`,
`/youtube\.com\/v\/([^&\n?#]+)/` and
`/youtube\.com\/watch\?.*v=([^&\n?#]+)/`, returning the first capture. -/
def extractYouTubeVideoId (url : String) : Option String :=
  match scanFor (tryAltsAt
      ["youtube.com/watch?v=".data, "youtu.be/".data, "youtube.com/embed/".data]
      ytExcl) url.data with
  | some cap => some ⟨cap⟩
  | none =>
    match scanFor (tryAltsAt ["youtube.com/v/".data] ytExcl) url.data with
    | some cap => some ⟨cap⟩
    | none =>
      match scanFor (fun t =>
          if listPrefixOf "youtube.com/watch?".data t then
            dotStarVEq ytExcl (t.drop "youtube.com/watch?".data.length)
          else none) url.data with
      | some cap => some ⟨cap⟩
      | none => none

/-- `isYouTubeUrl`: `extractYouTubeVideoId(url) !== null`. -/
def isYouTubeUrl (url : String) : Bool :=
  (extractYouTubeVideoId url).isSome

/-- Capture of `/vimeo\.com\/(\d+)/`: leftmost occurrence of the literal
`vimeo.com/` followed by a maximal nonempty digit run. -/
def vimeoCapture (cs : List Char) : Option (List Char) :=
  scanFor (fun t =>
    if listPrefixOf "vimeo.com/".data t then
      if ((t.drop "vimeo.com/".data.length).takeWhile Char.isDigit).isEmpty then none
      else some ((t.drop "vimeo.com/".data.length).takeWhile Char.isDigit)
    else none) cs

/-- `extractVimeoVideoId`: the digit capture of `/vimeo\.com\/(\d+)/`. -/
def extractVimeoVideoId (url : String) : Option String :=
  (vimeoCapture url.data).map (fun cap => ⟨cap⟩)

/-- `isVimeoUrl`: `/vimeo\.com\/(\d+)/.test(url)`. -/
def isVimeoUrl (url : String) : Bool :=
  (extractVimeoVideoId url).isSome

/-- Shared platform enumeration. The TS return type of `getVideoPlatform`
is the three-valued union `'youtube' | 'vimeo' | 'direct'`; it is embedded
into the four-valued type shared with `parseVideoUrl` so that "never
returns `unknown`" is expressible. -/
inductive PlatformType where
  | youtube
  | vimeo
  | direct
  | unknown
deriving DecidableEq, Repr

/-- `getVideoPlatform`: YouTube test first, then Vimeo, else `'direct'`. -/
def getVideoPlatform (url : String) : PlatformType :=
  if isYouTubeUrl url then .youtube
  else if isVimeoUrl url then .vimeo
  else .direct

end VideoUtils

namespace JsUrl

/-!
Modelled platform builtin: the WHATWG `new URL` parser, simplified to
hierarchical `scheme://[userinfo@]host[:port][/path][?query][#fragment]`
URLs. The model performs no percent-encoding/decoding and no dot-segment
path normalization, lowercases the host (ASCII), and treats a string
without a valid `scheme://` part or with an empty host as a parse failure
(the cases where `new URL` throws for the URLs this repository handles).
-/

/-- Parsed URL components: lowercased `hostname`, `pathname` (always
starting with `/`), and the decomposed query `searchParams`. -/
structure URLRec where
  hostname : String
  pathname : String
  params : List (String × String)
deriving DecidableEq, Repr

/-- Split a list at the first occurrence of a literal pattern, dropping
the pattern itself; `none` when the pattern does not occur. -/
def splitOnSubstr (pat : List Char) : List Char → Option (List Char × List Char)
  | [] => none
  | c :: rest =>
    if JsStr.listPrefixOf pat (c :: rest) then some ([], (c :: rest).drop pat.length)
    else
      match splitOnSubstr pat rest with
      | some (pre, post) => some (c :: pre, post)
      | none => none

/-- Drop everything up to and including the last `@` (userinfo). -/
def afterLastAt (cs : List Char) : List Char :=
  ((cs.reverse.takeWhile (fun c => c ≠ '@')).reverse)

/-- ASCII lowercasing (model of `String.prototype.toLowerCase` on the
ASCII hostnames and paths this repository inspects). -/
def jsToLower (cs : List Char) : List Char := cs.map Char.toLower

/-- Split on a separator character; adjacent separators yield empty pieces. -/
def splitOnChar (sep : Char) : List Char → List (List Char)
  | [] => [[]]
  | c :: rest =>
    if c = sep then [] :: splitOnChar sep rest
    else
      match splitOnChar sep rest with
      | [] => [[c]]
      | piece :: more => (c :: piece) :: more

/-- One `key=value` query piece (value empty when no `=` occurs). -/
def paramOfPiece (cs : List Char) : String × String :=
  (⟨cs.takeWhile (fun c => c ≠ '=')⟩, ⟨(cs.dropWhile (fun c => c ≠ '=')).drop 1⟩)

/-- `URLSearchParams` construction: split the query on `&`, drop empty
pieces, split each piece at its first `=`. -/
def parseQuery (cs : List Char) : List (String × String) :=
  ((splitOnChar '&' cs).filter (fun p => p ≠ [])).map paramOfPiece

/-- `searchParams.get`: first value bound to the key, if any. -/
def searchParamsGet (params : List (String × String)) (key : String) : Option String :=
  (params.find? (fun p => p.1 = key)).map (fun p => p.2)

/-- End of the authority part: `/`, `?` or `#`. -/
def notAuthorityEnd (c : Char) : Bool := !(c = '/' || c = '?' || c = '#')

/-- `hostname` of an authority: after the last `@`, before the first `:`. -/
def hostOf (authority : List Char) : List Char :=
  (afterLastAt authority).takeWhile (fun c => c ≠ ':')

/-- `pathname` from the part following the authority: the `/`-led path up
to `?` or `#`, or the root path. -/
def pathOf (afterAuth : List Char) : List Char :=
  match afterAuth with
  | '/' :: _ => afterAuth.takeWhile (fun c => !(c = '?' || c = '#'))
  | _ => ['/']

/-- Query string from the part following the authority (without `?`,
stopping at `#`). -/
def queryOf (afterAuth : List Char) : List Char :=
  match afterAuth.dropWhile (fun c => !(c = '?' || c = '#')) with
  | '?' :: qs => qs.takeWhile (fun c => c ≠ '#')
  | _ => []

/-- Authority/path/query decomposition of everything after `scheme://`. -/
def parseAfterScheme (rest : List Char) : Option URLRec :=
  if (hostOf (rest.takeWhile notAuthorityEnd)).isEmpty then none
  else
    some ⟨⟨jsToLower (hostOf (rest.takeWhile notAuthorityEnd))⟩,
          ⟨pathOf (rest.dropWhile notAuthorityEnd)⟩,
          parseQuery (queryOf (rest.dropWhile notAuthorityEnd))⟩

/-- The simplified WHATWG URL parser (see the namespace comment). -/
def parseURL (s : String) : Option URLRec :=
  match splitOnSubstr "://".data s.data with
  | none => none
  | some (scheme, rest) =>
    match scheme with
    | [] => none
    | c0 :: schemeRest =>
      if c0.isAlpha ∧ schemeRest.all (fun c => c.isAlphanum || c = '+' || c = '-' || c = '.') then
        parseAfterScheme rest
      else none

end JsUrl

namespace JsNum

/-!
Modelled platform builtin: `isNaN(Number(s))` for a string `s`, following
the `StringNumericLiteral` grammar (whitespace-trimmed; empty string is 0;
signed decimal literal with optional fraction/exponent; `Infinity`;
unsigned hex/octal/binary literals).
-/

/-- Whitespace stripped by `Number(string)` (the common code points). -/
def jsWhitespace (c : Char) : Bool :=
  c = ' ' || c = '\t' || c = '\n' || c = '\r' ||
  c = Char.ofNat 0x0b || c = Char.ofNat 0x0c || c = Char.ofNat 0xa0 ||
  c = Char.ofNat 0xfeff

/-- Trim leading and trailing JS whitespace. -/
def jsTrim (cs : List Char) : List Char :=
  ((cs.dropWhile jsWhitespace).reverse.dropWhile jsWhitespace).reverse

/-- A nonempty run of ASCII decimal digits. -/
def isDigits (cs : List Char) : Bool :=
  !cs.isEmpty && cs.all Char.isDigit

/-- Digits with an optional leading sign. -/
def signedDigits (cs : List Char) : Bool :=
  match cs with
  | '+' :: r => isDigits r
  | '-' :: r => isDigits r
  | r => isDigits r

/-- An optional exponent part consuming the whole remainder. -/
def expOk : List Char → Bool
  | [] => true
  | 'e' :: r => signedDigits r
  | 'E' :: r => signedDigits r
  | _ => false

/-- An unsigned decimal literal (`digits[.digits?] | .digits`) with
optional exponent, consuming the whole list. -/
def decimalLit (cs : List Char) : Bool :=
  match cs.drop (cs.takeWhile Char.isDigit).length with
  | '.' :: r2 =>
    (!((cs.takeWhile Char.isDigit).isEmpty && (r2.takeWhile Char.isDigit).isEmpty)) &&
      expOk (r2.drop (r2.takeWhile Char.isDigit).length)
  | rest => !(cs.takeWhile Char.isDigit).isEmpty && expOk rest

/-- Hex digit. -/
def isHexDigit (c : Char) : Bool :=
  c.isDigit || ('a' ≤ c && c ≤ 'f') || ('A' ≤ c && c ≤ 'F')

/-- Unsigned `0x`/`0o`/`0b` integer literals. -/
def nonDecimalLit (cs : List Char) : Bool :=
  match cs with
  | '0' :: 'x' :: r => !r.isEmpty && r.all isHexDigit
  | '0' :: 'X' :: r => !r.isEmpty && r.all isHexDigit
  | '0' :: 'o' :: r => !r.isEmpty && r.all (fun c => '0' ≤ c && c ≤ '7')
  | '0' :: 'O' :: r => !r.isEmpty && r.all (fun c => '0' ≤ c && c ≤ '7')
  | '0' :: 'b' :: r => !r.isEmpty && r.all (fun c => c = '0' || c = '1')
  | '0' :: 'B' :: r => !r.isEmpty && r.all (fun c => c = '0' || c = '1')
  | _ => false

/-- Strip one optional leading sign. -/
def stripSign : List Char → List Char
  | '+' :: r => r
  | '-' :: r => r
  | r => r

/-- Whether `Number(s)` yields a non-NaN value. -/
def strNumeric (cs0 : List Char) : Bool :=
  (jsTrim cs0).isEmpty ||
  nonDecimalLit (jsTrim cs0) ||
  (decimalLit (stripSign (jsTrim cs0)) || stripSign (jsTrim cs0) == "Infinity".data)

/-- `isNaN(Number(s))`. -/
def jsIsNaN (s : String) : Bool := !(strNumeric s.data)

end JsNum

namespace VideoLib

/-!
Embedding of the video-utilities module bundled in `src/src/lib/api-client.ts`
(`parseVideoUrl`, thumbnail helpers).
-/

open JsStr VideoUtils

/-- The `VideoPlatform` result interface of `parseVideoUrl`. -/
structure VideoPlatform where
  type : PlatformType
  videoId : Option String
  embedUrl : Option String
  thumbnailUrl : Option String
deriving DecidableEq, Repr

/-- The classification whose `type` is `unknown` and all fields absent. -/
def unknownPlatform : VideoPlatform := ⟨.unknown, none, none, none⟩

/-- The direct-file extensions checked by `parseVideoUrl`. -/
def videoExtensions : List String := [".mp4", ".webm", ".ogg", ".mov", ".avi"]

/-- `String.prototype.endsWith`: suffix test. -/
def jsEndsWith (s suff : String) : Bool := suff.data.isSuffixOf s.data

/-- `const hostname = urlObj.hostname.toLowerCase()`. -/
def hostLower (u : JsUrl.URLRec) : String := ⟨JsUrl.jsToLower u.hostname.data⟩

/-- The YouTube `videoId` computed in the YouTube branch: `youtu.be` path
id, or the `/watch` `v` parameter, else empty. -/
def ytIdOf (u : JsUrl.URLRec) : String :=
  if jsIncludes (hostLower u) "youtu.be" then ⟨u.pathname.data.drop 1⟩
  else if u.pathname = "/watch" then (JsUrl.searchParamsGet u.params "v").getD ""
  else ""

/-- The classification returned for a YouTube video id. -/
def ytResult (id : String) : VideoPlatform :=
  ⟨.youtube, some id,
    some ("https://www.youtube.com/embed/" ++ id),
    some ("https://img.youtube.com/vi/" ++ id ++ "/maxresdefault.jpg")⟩

/-- `videoId = urlObj.pathname.slice(1)` of the Vimeo branch. -/
def vimeoIdOf (u : JsUrl.URLRec) : String := ⟨u.pathname.data.drop 1⟩

/-- The classification returned for a Vimeo video id. -/
def vimeoResult (id : String) : VideoPlatform :=
  ⟨.vimeo, some id,
    some ("https://player.vimeo.com/video/" ++ id),
    some ("https://vumbnail.com/" ++ id ++ ".jpg")⟩

/-- The direct-file extension test on the lowercased pathname. -/
def hasVideoExtension (u : JsUrl.URLRec) : Bool :=
  videoExtensions.any (fun ext => jsEndsWith ⟨JsUrl.jsToLower u.pathname.data⟩ ext)

/-- The Vimeo / direct-file / unknown fall-through after the YouTube
branch did not return. -/
def vimeoOrRest (u : JsUrl.URLRec) : VideoPlatform :=
  if jsIncludes (hostLower u) "vimeo.com" ∧ vimeoIdOf u ≠ "" ∧ !(JsNum.jsIsNaN (vimeoIdOf u)) then
    vimeoResult (vimeoIdOf u)
  else if hasVideoExtension u then ⟨.direct, some u.pathname, none, none⟩
  else unknownPlatform

/-- Classification of a successfully parsed URL: YouTube hostname check
(with a nonempty extracted id), then the Vimeo numeric path segment, then
the direct file extension, else `unknown`. -/
def classifyParsed (u : JsUrl.URLRec) : VideoPlatform :=
  if (jsIncludes (hostLower u) "youtube.com" || jsIncludes (hostLower u) "youtu.be") ∧
      ytIdOf u ≠ "" then
    ytResult (ytIdOf u)
  else vimeoOrRest u

/-- `parseVideoUrl`: classify the parsed URL; a URL-parse failure (the
`catch` branch) yields `unknown`. -/
def parseVideoUrl (url : String) : VideoPlatform :=
  match JsUrl.parseURL url with
  | none => unknownPlatform
  | some u => classifyParsed u

/-- Modelled platform builtin `btoa`: base64 alphabet. -/
def base64Alphabet : List Char :=
  "ABCDEFGHIJKLMNOPQRSTUVWXYZabcdefghijklmnopqrstuvwxyz0123456789+/".data

/-- Sextet to base64 character. -/
def b64Char (n : Nat) : Char := base64Alphabet.getD n 'A'

/-- Base64-encode a byte list given as character codes (Latin-1), with
`=` padding, three bytes at a time. -/
def btoaChars : List Char → List Char
  | [] => []
  | [a] =>
    let x := a.toNat
    [b64Char (x / 4), b64Char (x % 4 * 16), '=', '=']
  | [a, b] =>
    let x := a.toNat
    let y := b.toNat
    [b64Char (x / 4), b64Char (x % 4 * 16 + y / 16), b64Char (y % 16 * 4), '=']
  | a :: b :: c :: rest =>
    let x := a.toNat
    let y := b.toNat
    let z := c.toNat
    b64Char (x / 4) :: b64Char (x % 4 * 16 + y / 16) ::
      b64Char (y % 16 * 4 + z / 64) :: b64Char (z % 64) :: btoaChars rest

/-- Modelled platform builtin: `btoa` on a Latin-1 string. -/
def btoa (s : String) : String := ⟨btoaChars s.data⟩

/-- The inline placeholder SVG template literal of `generateVideoThumbnail`
(the source repeats this literal in its three fallback branches with
slightly different indentation; the 8-space variant is reproduced). -/
def capturePlaceholderSvg : String :=
  "\n        <svg width=\"400\" height=\"250\" xmlns=\"http://www.w3.org/2000/svg\">\n          <rect width=\"400\" height=\"250\" fill=\"#f3f4f6\"/>\n          <rect x=\"150\" y=\"100\" width=\"100\" height=\"50\" fill=\"#d1d5db\" rx=\"4\"/>\n          <text x=\"200\" y=\"130\" font-family=\"Arial\" font-size=\"12\" fill=\"#6b7280\" text-anchor=\"middle\">\n            Video\n          </text>\n        </svg>\n      "

/-- The placeholder data URI resolved by the fallback branches. -/
def placeholderDataUri : String :=
  "data:image/svg+xml;base64," ++ btoa capturePlaceholderSvg

/-- What the created `<video>` element does after `video.src` is set:
either its `onerror` handler fires, or metadata loads, the seek completes
(the `onloadedmetadata` handler's try/catch never rejects — a seek failure
retries at 0 seconds) and `onseeked` attempts the canvas capture, with
`ctxAvailable` modelling `canvas.getContext('2d')` being non-null,
`canvasThrows` a synchronous draw/encode failure, and `dataUrl` the
`canvas.toDataURL` result. -/
inductive CaptureEvent where
  | loadError
  | seeked (ctxAvailable : Bool) (canvasThrows : Bool) (dataUrl : String)
deriving DecidableEq, Repr

/-- Browser environment of a thumbnail capture: `window.location.hostname`
plus the video element's behaviour. -/
structure ThumbEnv where
  windowHostname : String
  event : CaptureEvent
deriving DecidableEq, Repr

/-- The capture attempt on the created `<video>` element for a parsed
direct URL: the cross-origin check, then the load/seek/canvas events. -/
def captureForParsed (env : ThumbEnv) (u : JsUrl.URLRec) : Except String String :=
  if u.hostname ≠ env.windowHostname ∧ !(jsIncludes u.hostname "localhost") ∧
      !(jsIncludes u.hostname "127.0.0.1") then
    .ok placeholderDataUri
  else
    match env.event with
    | .loadError => .ok placeholderDataUri
    | .seeked ctxAvailable canvasThrows dataUrl =>
      if !ctxAvailable then .error "Could not get canvas context"
      else if canvasThrows then .error "canvas draw or encode error"
      else .ok dataUrl

/-- `generateVideoThumbnail`: rejects (`Except.error`) or resolves
(`Except.ok`) following the source's promise executor. -/
def generateVideoThumbnail (env : ThumbEnv) (videoUrl : String) :
    Except String String :=
  if (parseVideoUrl videoUrl).type ≠ .direct then
    .error "Not a direct video file"
  else
    match JsUrl.parseURL videoUrl with
    | none => .ok placeholderDataUri
    | some u => captureForParsed env u

end VideoLib

namespace UseVideoPlayer

/-!
Embedding of the `useVideoPlayer` hook (`src/unnamed/part_001`): the
`VideoPlayerState` record, its initial value, and the handlers the claims
are about. Numbers are modelled as `ℚ`. The controls-hide timeout is
modelled explicitly: `pendingTimers` is the multiset of timer ids whose
hide callbacks have been scheduled (`setTimeout`) and not cancelled
(`clearTimeout`) or fired; `controlsTimeoutRef` mirrors
`controlsTimeoutRef.current`; `nextTimerId` allocates fresh ids.
-/

/-- The `VideoPlayerState` interface. -/
structure VideoPlayerState where
  playing : Bool
  volume : ℚ
  muted : Bool
  played : ℚ
  duration : ℚ
  showControls : Bool
  error : Option String
  playbackRate : ℚ
  loading : Bool
  buffering : Bool
deriving DecidableEq, Repr

/-- The `useState` initial value of the hook. -/
def initialState : VideoPlayerState :=
  { playing := false, volume := 8/10, muted := true, played := 0, duration := 0,
    showControls := true, error := none, playbackRate := 1, loading := true,
    buffering := false }

/-- Hook instance state including the timer bookkeeping. -/
structure HookState where
  player : VideoPlayerState
  pendingTimers : List ℕ
  controlsTimeoutRef : Option ℕ
  nextTimerId : ℕ
deriving DecidableEq, Repr

/-- Freshly mounted hook instance. -/
def initialHookState : HookState :=
  { player := initialState, pendingTimers := [], controlsTimeoutRef := none,
    nextTimerId := 0 }

/-- `setTimeout(() => setShowControls(false), 3000)` followed by the
assignment to `controlsTimeoutRef.current`. -/
def armHideTimer (s : HookState) : HookState :=
  { s with pendingTimers := s.pendingTimers ++ [s.nextTimerId],
           controlsTimeoutRef := some s.nextTimerId,
           nextTimerId := s.nextTimerId + 1 }

/-- `if (controlsTimeoutRef.current) clearTimeout(controlsTimeoutRef.current)`. -/
def clearRefTimer (s : HookState) : HookState :=
  match s.controlsTimeoutRef with
  | some t => { s with pendingTimers := s.pendingTimers.erase t }
  | none => s

/-- `handleVideoClick`: toggle playing, reveal controls, clear any pending
hide timeout, then arm a new 3-second hide timeout. -/
def handleVideoClick (s : HookState) : HookState :=
  armHideTimer (clearRefTimer
    { s with player := { s.player with playing := !s.player.playing,
                                       showControls := true } })

/-- `handleLoad`: clear error/loading/buffering, reveal controls, adopt a
nonzero reported duration, then arm a 3-second hide timeout (the source
does NOT clear a previously pending timeout here). `dataDuration` is the
`data.duration` field of the ready payload when present and truthy. -/
def handleLoad (s : HookState) (dataDuration : Option ℚ) : HookState :=
  armHideTimer
    { s with player :=
      { s.player with
        error := none, loading := false, buffering := false, showControls := true,
        duration :=
          match dataDuration with
          | some d => if d ≠ 0 then d else s.player.duration
          | none => s.player.duration } }

/-- `handlePlayPause`: toggle playing and reveal controls. -/
def handlePlayPause (s : VideoPlayerState) : VideoPlayerState :=
  { s with playing := !s.playing, showControls := true }

/-- `handleVolumeChange`: `value` is `value[0]` of the slider callback
array; sets the volume, mutes exactly at 0, and unmutes on a nonzero
value when currently muted. -/
def handleVolumeChange (s : VideoPlayerState) (value : ℚ) : VideoPlayerState :=
  { s with volume := value,
           muted := if value = 0 then true else if s.muted then false else s.muted }

/-- `handleSeek`: `seekTo` is `value[0]` of the slider callback array;
optimistically records the played fraction and, when a player ref exists
and the known duration is positive, forwards `seekTo * duration` (in
seconds) to the adapter's `seekTo` — the second component is the forwarded
time, `none` when nothing is forwarded. -/
def handleSeek (hasPlayer : Bool) (s : VideoPlayerState) (seekTo : ℚ) :
    VideoPlayerState × Option ℚ :=
  let s' := { s with played := seekTo }
  if hasPlayer ∧ 0 < s.duration then (s', some (seekTo * s.duration))
  else (s', none)

/-- `handleError`: surface a user-facing message, stop loading/buffering. -/
def handleError (s : VideoPlayerState) : VideoPlayerState :=
  { s with error := some "Failed to load video", loading := false, buffering := false }

end UseVideoPlayer

namespace VimeoPlayer

/-!
Embedding of the `VimeoPlayer` component state
(`src/src/components/VimeoPlayer.tsx`) and its `handleVolumeChange`.
-/

/-- The component's `useState` fields. -/
structure VimeoState where
  playing : Bool
  volume : ℚ
  muted : Bool
  showControls : Bool
  error : Option String
  playbackRate : ℚ
  loading : Bool
  duration : ℚ
  played : ℚ
deriving DecidableEq, Repr

/-- The component's `useState` initial values (`playing` starts `true`,
matching the autoplaying embed). -/
def initialState : VimeoState :=
  { playing := true, volume := 8/10, muted := true, showControls := true,
    error := none, playbackRate := 1, loading := true, duration := 0, played := 0 }

/-- `handleVolumeChange`: `value` is `value[0]` of the slider callback
array; sets the volume, forwards it to the remote player when one is
bound (`hasPlayer`), mutes exactly at 0, unmutes on nonzero while muted.
The second component is the volume forwarded to `player.setVolume`. -/
def handleVolumeChange (hasPlayer : Bool) (s : VimeoState) (value : ℚ) :
    VimeoState × Option ℚ :=
  ({ s with volume := value,
            muted := if value = 0 then true else if s.muted then false else s.muted },
   if hasPlayer then some value else none)

end VimeoPlayer

namespace ErrorHandler

/-!
Embedding of `src/src/lib/error-handler.ts`: the `AppError` shape and
`handleNetworkError`. Only the branches reachable from a completed `fetch`
inside `ApiClient.request` are modelled (an already-typed `AppError` passes
through unchanged; any other JS `Error` is wrapped with code
`UNKNOWN_ERROR` and the default status 500).
-/

/-- `AppError`'s data (name/isOperational/details omitted — constant in
the modelled paths). -/
structure AppError where
  message : String
  code : String
  statusCode : ℕ
deriving DecidableEq, Repr

/-- A thrown JS value in the modelled paths: an `AppError` or some other
`Error` carrying only a message. -/
inductive Thrown where
  | app (e : AppError)
  | jsError (message : String)
deriving DecidableEq, Repr

/-- `handleNetworkError`: `AppError`s pass through; other errors are
wrapped as `UNKNOWN_ERROR` (statusCode defaulting to 500). -/
def handleNetworkError : Thrown → AppError
  | .app e => e
  | .jsError m => ⟨m, "UNKNOWN_ERROR", 500⟩

end ErrorHandler

namespace ApiClient

/-!
Embedding of the `ApiClient` request core and the pagination math of
`getVideosPaginated` (`src/src/lib/api-client.ts`).
-/

/-- One entry of a FastAPI 422 body's `detail` array (`loc` members are
stringified; the numeric members of `loc` join identically). -/
structure ValidationDetail where
  loc : List String
  msg : String
  type : String
deriving DecidableEq, Repr

/-- The body of a completed HTTP response, classified by how
`response.json()` would fare on it: the FastAPI validation shape, valid
JSON of some other shape, or not JSON at all. -/
inductive ResponseBody where
  | validationJson (detail : List ValidationDetail)
  | otherJson (raw : String)
  | text (raw : String)
deriving DecidableEq, Repr

/-- A completed `fetch` response. -/
structure HttpResponse where
  status : ℕ
  statusText : String
  body : ResponseBody
deriving DecidableEq, Repr

/-- `Response.ok`: status in the 2xx range. -/
def responseOk (r : HttpResponse) : Bool := 200 ≤ r.status && r.status < 300

/-- The joined 422 message:
`detail.map(d => loc.join('.') + ': ' + d.msg).join(', ')`. -/
def validationMessage (detail : List ValidationDetail) : String :=
  String.intercalate ", "
    (detail.map (fun d => String.intercalate "." d.loc ++ ": " ++ d.msg))

/-- The body of `request`'s `try` block: what it throws or returns. On a
non-2xx status it always throws; on 422 a parseable validation body gives
a typed `VALIDATION_ERROR`, a non-parseable or differently-shaped body
makes `response.json()` / `.detail.map` throw a plain JS error (modelled
message); otherwise a generic `API_ERROR` carries the HTTP status. A 2xx
response returns the (JSON-or-text) body. -/
def requestTry (r : HttpResponse) : Except ErrorHandler.Thrown ResponseBody :=
  if responseOk r then .ok r.body
  else if r.status = 422 then
    match r.body with
    | .validationJson detail =>
      .error (.app ⟨validationMessage detail, "VALIDATION_ERROR", 422⟩)
    | .otherJson _ =>
      .error (.jsError "Cannot read properties of undefined (reading 'map')")
    | .text _ => .error (.jsError "Unexpected token in JSON")
  else
    .error (.app ⟨"HTTP " ++ toString r.status ++ ": " ++ r.statusText,
                  "API_ERROR", r.status⟩)

/-- `request`: the `try`/`catch` wrapper — anything thrown is passed
through `handleNetworkError` and rethrown. -/
def request (r : HttpResponse) : Except ErrorHandler.AppError ResponseBody :=
  match requestTry r with
  | .ok d => .ok d
  | .error t => .error (ErrorHandler.handleNetworkError t)

/-- The pagination record computed by `getVideosPaginated`. -/
structure Pagination where
  page : ℕ
  limit : ℕ
  total : ℕ
  totalPages : ℤ
  hasNext : Bool
  hasPrev : Bool
deriving DecidableEq, Repr

/-- The pagination math of `getVideosPaginated` after response
normalization: `totalPages = Math.ceil(total / limit)`,
`hasNext = page < totalPages`, `hasPrev = page > 1` (the JS division is
exact real division, modelled over `ℚ`; `limit` is positive in every
call site, the default being 12). -/
def getVideosPaginatedPagination (page limit total : ℕ) : Pagination :=
  let totalPages : ℤ := ⌈(total : ℚ) / (limit : ℚ)⌉
  { page := page, limit := limit, total := total, totalPages := totalPages,
    hasNext := decide ((page : ℤ) < totalPages), hasPrev := decide (1 < page) }

end ApiClient

section SanityChecks
example : VideoUtils.extractYouTubeVideoId "https://youtube.com/watch?v=dQw4w9WgXcQ" =
    some "dQw4w9WgXcQ" := by decide
example : VideoUtils.extractYouTubeVideoId "https://youtu.be/abc123" = some "abc123" := by decide
example : VideoUtils.extractYouTubeVideoId "https://youtube.com/embed/abc123" =
    some "abc123" := by decide
example : VideoUtils.extractYouTubeVideoId "https://vimeo.com/123" = none := by decide
example : VideoUtils.extractYouTubeVideoId "youtube.com/watch?feature=x&v=zz" =
    some "zz" := by decide
example : VideoUtils.getVideoPlatform "https://vimeo.com/123456" = .vimeo := by decide
example : VideoUtils.getVideoPlatform "https://vimeo.com/abc" = .direct := by decide
example : VideoUtils.getVideoPlatform "" = .direct := by decide
example : JsStr.jsIncludes "youtube.com" "youtu.be" = false := by decide
example : JsStr.jsIncludes "www.youtube.com" "youtube.com" = true := by decide
example : VideoLib.parseVideoUrl "https://www.youtube.com/watch?v=dQw4w9WgXcQ" =
    ⟨.youtube, some "dQw4w9WgXcQ", some "https://www.youtube.com/embed/dQw4w9WgXcQ",
      some "https://img.youtube.com/vi/dQw4w9WgXcQ/maxresdefault.jpg"⟩ := by decide
example : VideoLib.parseVideoUrl "https://youtu.be/abc" =
    ⟨.youtube, some "abc", some "https://www.youtube.com/embed/abc",
      some "https://img.youtube.com/vi/abc/maxresdefault.jpg"⟩ := by decide
example : (VideoLib.parseVideoUrl "https://youtube.com/embed/dQw4w9WgXcQ").type =
    .unknown := by decide
example : VideoLib.parseVideoUrl "https://vimeo.com/123456" =
    ⟨.vimeo, some "123456", some "https://player.vimeo.com/video/123456",
      some "https://vumbnail.com/123456.jpg"⟩ := by decide
example : (VideoLib.parseVideoUrl "https://vimeo.com/abc").type = .unknown := by decide
example : (VideoLib.parseVideoUrl "not a url").type = .unknown := by decide
example : (VideoLib.parseVideoUrl "https://cdn.example.com/clip.MP4").type =
    .direct := by decide
example : (VideoLib.parseVideoUrl "https://cdn.example.com/clip.mp4").videoId =
    some "/clip.mp4" := by decide
example : JsNum.jsIsNaN "123" = false := by decide
example : JsNum.jsIsNaN "abc" = true := by decide
example : JsNum.jsIsNaN "12.5e3" = false := by decide
example : JsNum.jsIsNaN "Infinity" = false := by decide
example : JsNum.jsIsNaN "1e" = true := by decide
example : VideoLib.btoa "Man" = "TWFu" := by decide
example : VideoLib.btoa "Ma" = "TWE=" := by decide
example : VideoLib.btoa "M" = "TQ==" := by decide
example : VideoLib.generateVideoThumbnail ⟨"localhost", .loadError⟩
    "https://youtube.com/watch?v=abc" = .error "Not a direct video file" := by decide
example : VideoLib.generateVideoThumbnail ⟨"localhost", .loadError⟩ "not a url" =
    .error "Not a direct video file" := by decide
set_option maxRecDepth 8192 in
example : VideoLib.generateVideoThumbnail ⟨"app.example.org", .loadError⟩
    "https://cdn.other.net/a.mp4" = .ok VideoLib.placeholderDataUri := by decide
example : VideoLib.generateVideoThumbnail ⟨"localhost", .seeked false false "x"⟩
    "https://localhost/a.mp4" = .error "Could not get canvas context" := by decide
example : VideoLib.generateVideoThumbnail ⟨"localhost", .seeked true false "data:image/jpeg;xyz"⟩
    "https://localhost/a.mp4" = .ok "data:image/jpeg;xyz" := by decide
example : (ApiClient.getVideosPaginatedPagination 1 12 20).hasNext = true := by
  have h : ⌈((20 : ℕ) : ℚ) / ((12 : ℕ) : ℚ)⌉ = 2 := by
    rw [Int.ceil_eq_iff]
    constructor <;> push_cast <;> norm_num
  simp only [ApiClient.getVideosPaginatedPagination, h, decide_eq_true_eq]
  norm_num
example : (ApiClient.getVideosPaginatedPagination 2 12 20).hasNext = false := by
  have h : ⌈((20 : ℕ) : ℚ) / ((12 : ℕ) : ℚ)⌉ = 2 := by
    rw [Int.ceil_eq_iff]
    constructor <;> push_cast <;> norm_num
  simp only [ApiClient.getVideosPaginatedPagination, h, decide_eq_false_iff_not]
  norm_num
example : ApiClient.request ⟨404, "Not Found", .text "x"⟩ =
    .error ⟨"HTTP 404: Not Found", "API_ERROR", 404⟩ := by decide
example : ApiClient.request ⟨422, "Unprocessable Entity",
      .validationJson [⟨["body", "title"], "field required", "value_error.missing"⟩]⟩ =
    .error ⟨"body.title: field required", "VALIDATION_ERROR", 422⟩ := by decide
example : (UseVideoPlayer.handleSeek true
    { UseVideoPlayer.initialState with duration := 100 } (13/10)).2 = some 130 := by
  simp only [UseVideoPlayer.handleSeek, UseVideoPlayer.initialState]
  norm_num
example : (UseVideoPlayer.handleVideoClick
    (UseVideoPlayer.handleVideoClick UseVideoPlayer.initialHookState)).pendingTimers =
    [1] := by decide
example : (UseVideoPlayer.handleLoad
    (UseVideoPlayer.handleVideoClick UseVideoPlayer.initialHookState) none).pendingTimers =
    [0, 1] := by decide
end SanityChecks

/-! ### Helper lemmas about the scanning machinery -/

namespace JsStr

theorem scanFor_cons_none {α} (m : List Char → Option α) (c : Char) (rest : List Char)
    (h : m (c :: rest) = none) : scanFor m (c :: rest) = scanFor m rest := by
  simp [scanFor, h]

theorem scanFor_cons_some {α} (m : List Char → Option α) (c : Char) (rest : List Char) (r : α)
    (h : m (c :: rest) = some r) : scanFor m (c :: rest) = some r := by
  simp [scanFor, h]

theorem scanFor_eq_none {α} (m : List Char → Option α) (cs : List Char)
    (h : ∀ c rest, (c :: rest) <:+ cs → m (c :: rest) = none) :
    scanFor m cs = none := by
  induction cs with
  | nil => rfl
  | cons c rest ih =>
    rw [scanFor_cons_none _ _ _ (h c rest (List.suffix_refl _))]
    exact ih (fun c' rest' hs => h c' rest' (hs.trans (List.suffix_cons c rest)))

theorem altAttempt_of_fail (excl cs alt : List Char)
    (h : listPrefixOf alt cs = false) : altAttempt excl cs alt = none := by
  unfold altAttempt
  rw [h, if_neg Bool.false_ne_true]

theorem altAttempt_of_match (excl cs alt cap : List Char)
    (hpre : listPrefixOf alt cs = true)
    (hcap : (cs.drop alt.length).takeWhile (fun c => !(excl.contains c)) = cap)
    (hne : cap.isEmpty = false) :
    altAttempt excl cs alt = some cap := by
  unfold altAttempt
  rw [hpre, if_pos rfl, hcap, hne, if_neg Bool.false_ne_true]

theorem tryAltsAt_cons_of_fail (alt : List Char) (alts : List (List Char)) (excl cs : List Char)
    (h : listPrefixOf alt cs = false) :
    tryAltsAt (alt :: alts) excl cs = tryAltsAt alts excl cs := by
  unfold tryAltsAt
  rw [List.findSome?_cons, altAttempt_of_fail excl cs alt h]

theorem tryAltsAt_first (alt : List Char) (alts : List (List Char)) (excl cs cap : List Char)
    (hpre : listPrefixOf alt cs = true)
    (hcap : (cs.drop alt.length).takeWhile (fun c => !(excl.contains c)) = cap)
    (hne : cap.isEmpty = false) :
    tryAltsAt (alt :: alts) excl cs = some cap := by
  unfold tryAltsAt
  rw [List.findSome?_cons, altAttempt_of_match excl cs alt cap hpre hcap hne]

theorem tryAltsAt_none_of_heads (alts : List (List Char)) (excl : List Char) (c : Char)
    (rest : List Char)
    (h : ∀ alt ∈ alts, listPrefixOf alt (c :: rest) = false) :
    tryAltsAt alts excl (c :: rest) = none := by
  induction alts with
  | nil => rfl
  | cons a as ih =>
    rw [tryAltsAt_cons_of_fail _ _ _ _ (h a (by simp))]
    exact ih (fun alt hm => h alt (by simp [hm]))

end JsStr

namespace JsUrl

theorem splitOnChar_no_sep (sep : Char) (cs : List Char) (h : ∀ c ∈ cs, ¬c = sep) :
    splitOnChar sep cs = [cs] := by
  induction cs with
  | nil => rfl
  | cons c rest ih =>
    have hc : ¬c = sep := h c (by simp)
    simp [splitOnChar, hc, ih (fun c' hm => h c' (by simp [hm]))]

end JsUrl

/-! ### Lemmas about the YouTube / Vimeo pattern matchers -/

namespace JsStr

theorem listPrefixOf_false_of_head_ne (a c : Char) (as rest : List Char)
    (hbeq : (a == c) = false) : listPrefixOf (a :: as) (c :: rest) = false := by
  show (a == c && listPrefixOf as rest) = false
  rw [hbeq, Bool.false_and]

end JsStr

namespace VideoUtils

open JsStr

theorem isEmpty_false_of_ne_nil {X : List Char} (hne : X ≠ []) : X.isEmpty = false := by
  cases X with
  | nil => exact absurd rfl hne
  | cons a t => rfl

theorem takeWhile_ytExcl_eq_self (X : String)
    (hX : ∀ c ∈ X.data, c ≠ '&' ∧ c ≠ '?' ∧ c ≠ '#' ∧ c ≠ '\n') :
    X.data.takeWhile (fun c => !(ytExcl.contains c)) = X.data := by
  apply List.takeWhile_eq_self_iff.mpr
  intro c hc
  obtain ⟨h1, h2, h3, h4⟩ := hX c hc
  simp [ytExcl, h1, h2, h3, h4]

theorem extractYouTubeVideoId_watch (X : String) (hne : X.data ≠ [])
    (hX : ∀ c ∈ X.data, c ≠ '&' ∧ c ≠ '?' ∧ c ≠ '#' ∧ c ≠ '\n') :
    extractYouTubeVideoId ("https://youtube.com/watch?v=" ++ X) = some X := by
  have htake := takeWhile_ytExcl_eq_self X hX
  have hisE := isEmpty_false_of_ne_nil hne
  have hdata : ("https://youtube.com/watch?v=" ++ X).data =
      'h' :: 't' :: 't' :: 'p' :: 's' :: ':' :: '/' :: '/' ::
      'y' :: 'o' :: 'u' :: 't' :: 'u' :: 'b' :: 'e' :: '.' :: 'c' :: 'o' :: 'm' :: '/' ::
      'w' :: 'a' :: 't' :: 'c' :: 'h' :: '?' :: 'v' :: '=' :: X.data := rfl
  have hscan : scanFor (tryAltsAt
      ["youtube.com/watch?v=".data, "youtu.be/".data, "youtube.com/embed/".data]
      ytExcl) ("https://youtube.com/watch?v=" ++ X).data = some X.data := by
    rw [hdata]
    iterate 8 rw [scanFor_cons_none _ _ _ rfl]
    exact scanFor_cons_some _ _ _ _ (tryAltsAt_first _ _ _ _ _ rfl htake hisE)
  unfold extractYouTubeVideoId
  rw [hscan]

theorem extractYouTubeVideoId_youtu_be (X : String) (hne : X.data ≠ [])
    (hX : ∀ c ∈ X.data, c ≠ '&' ∧ c ≠ '?' ∧ c ≠ '#' ∧ c ≠ '\n') :
    extractYouTubeVideoId ("https://youtu.be/" ++ X) = some X := by
  have htake := takeWhile_ytExcl_eq_self X hX
  have hisE := isEmpty_false_of_ne_nil hne
  have hdata : ("https://youtu.be/" ++ X).data =
      'h' :: 't' :: 't' :: 'p' :: 's' :: ':' :: '/' :: '/' ::
      'y' :: 'o' :: 'u' :: 't' :: 'u' :: '.' :: 'b' :: 'e' :: '/' :: X.data := rfl
  have hscan : scanFor (tryAltsAt
      ["youtube.com/watch?v=".data, "youtu.be/".data, "youtube.com/embed/".data]
      ytExcl) ("https://youtu.be/" ++ X).data = some X.data := by
    rw [hdata]
    iterate 8 rw [scanFor_cons_none _ _ _ rfl]
    refine scanFor_cons_some _ _ _ _ ?_
    rw [tryAltsAt_cons_of_fail "youtube.com/watch?v=".data _ _
        ('y' :: 'o' :: 'u' :: 't' :: 'u' :: '.' :: 'b' :: 'e' :: '/' :: X.data) rfl]
    exact tryAltsAt_first _ _ _ _ _ rfl htake hisE
  unfold extractYouTubeVideoId
  rw [hscan]

theorem extractYouTubeVideoId_embed (X : String) (hne : X.data ≠ [])
    (hX : ∀ c ∈ X.data, c ≠ '&' ∧ c ≠ '?' ∧ c ≠ '#' ∧ c ≠ '\n') :
    extractYouTubeVideoId ("https://youtube.com/embed/" ++ X) = some X := by
  have htake := takeWhile_ytExcl_eq_self X hX
  have hisE := isEmpty_false_of_ne_nil hne
  have hdata : ("https://youtube.com/embed/" ++ X).data =
      'h' :: 't' :: 't' :: 'p' :: 's' :: ':' :: '/' :: '/' ::
      'y' :: 'o' :: 'u' :: 't' :: 'u' :: 'b' :: 'e' :: '.' :: 'c' :: 'o' :: 'm' :: '/' ::
      'e' :: 'm' :: 'b' :: 'e' :: 'd' :: '/' :: X.data := rfl
  have hscan : scanFor (tryAltsAt
      ["youtube.com/watch?v=".data, "youtu.be/".data, "youtube.com/embed/".data]
      ytExcl) ("https://youtube.com/embed/" ++ X).data = some X.data := by
    rw [hdata]
    iterate 8 rw [scanFor_cons_none _ _ _ rfl]
    refine scanFor_cons_some _ _ _ _ ?_
    rw [tryAltsAt_cons_of_fail "youtube.com/watch?v=".data _ _
        ('y' :: 'o' :: 'u' :: 't' :: 'u' :: 'b' :: 'e' :: '.' :: 'c' :: 'o' :: 'm' :: '/' ::
         'e' :: 'm' :: 'b' :: 'e' :: 'd' :: '/' :: X.data) rfl,
      tryAltsAt_cons_of_fail "youtu.be/".data _ _
        ('y' :: 'o' :: 'u' :: 't' :: 'u' :: 'b' :: 'e' :: '.' :: 'c' :: 'o' :: 'm' :: '/' ::
         'e' :: 'm' :: 'b' :: 'e' :: 'd' :: '/' :: X.data) rfl]
    exact tryAltsAt_first _ _ _ _ _ rfl htake hisE
  unfold extractYouTubeVideoId
  rw [hscan]

theorem extractYouTubeVideoId_none_no_y (url : String)
    (h : ∀ c ∈ url.data, ('y' == c) = false) :
    extractYouTubeVideoId url = none := by
  have hmem : ∀ (c : Char) (rest : List Char), (c :: rest) <:+ url.data → ('y' == c) = false :=
    fun c rest hs => h c (hs.subset (List.mem_cons_self c rest))
  have h1 : scanFor (tryAltsAt
      ["youtube.com/watch?v=".data, "youtu.be/".data, "youtube.com/embed/".data]
      ytExcl) url.data = none := by
    refine scanFor_eq_none _ _ (fun c rest hs => ?_)
    refine tryAltsAt_none_of_heads _ _ _ _ (fun alt halt => ?_)
    have hb := hmem c rest hs
    simp only [List.mem_cons, List.not_mem_nil, or_false] at halt
    rcases halt with rfl | rfl | rfl
    · exact listPrefixOf_false_of_head_ne _ _ _ _ hb
    · exact listPrefixOf_false_of_head_ne _ _ _ _ hb
    · exact listPrefixOf_false_of_head_ne _ _ _ _ hb
  have h2 : scanFor (tryAltsAt ["youtube.com/v/".data] ytExcl) url.data = none := by
    refine scanFor_eq_none _ _ (fun c rest hs => ?_)
    refine tryAltsAt_none_of_heads _ _ _ _ (fun alt halt => ?_)
    have hb := hmem c rest hs
    simp only [List.mem_cons, List.not_mem_nil, or_false] at halt
    rcases halt with rfl
    exact listPrefixOf_false_of_head_ne _ _ _ _ hb
  have h3 : scanFor (fun t =>
      if listPrefixOf "youtube.com/watch?".data t then
        dotStarVEq ytExcl (t.drop "youtube.com/watch?".data.length)
      else none) url.data = none := by
    refine scanFor_eq_none _ _ (fun c rest hs => ?_)
    have hb := hmem c rest hs
    have hpre : listPrefixOf "youtube.com/watch?".data (c :: rest) = false :=
      listPrefixOf_false_of_head_ne _ _ _ _ hb
    rw [hpre, if_neg Bool.false_ne_true]
  unfold extractYouTubeVideoId
  rw [h1, h2, h3]

theorem vimeoCapture_digits (d : String) (hne : d.data ≠ [])
    (hd : ∀ c ∈ d.data, c.isDigit = true) :
    vimeoCapture ("https://vimeo.com/" ++ d).data = some d.data := by
  have htake : d.data.takeWhile Char.isDigit = d.data := List.takeWhile_eq_self_iff.mpr hd
  have hisE := isEmpty_false_of_ne_nil hne
  have hdata : ("https://vimeo.com/" ++ d).data =
      'h' :: 't' :: 't' :: 'p' :: 's' :: ':' :: '/' :: '/' ::
      'v' :: 'i' :: 'm' :: 'e' :: 'o' :: '.' :: 'c' :: 'o' :: 'm' :: '/' :: d.data := rfl
  unfold vimeoCapture
  rw [hdata]
  iterate 8 rw [scanFor_cons_none _ _ _ rfl]
  refine scanFor_cons_some _ _ _ _ ?_
  have hdrop : (('v' :: 'i' :: 'm' :: 'e' :: 'o' :: '.' :: 'c' :: 'o' :: 'm' :: '/' :: d.data).drop
      "vimeo.com/".data.length).takeWhile Char.isDigit = d.data := htake
  rw [if_pos (show listPrefixOf "vimeo.com/".data
      ('v' :: 'i' :: 'm' :: 'e' :: 'o' :: '.' :: 'c' :: 'o' :: 'm' :: '/' :: d.data) = true
      from rfl),
    hdrop, hisE, if_neg Bool.false_ne_true]

end VideoUtils

/-! ### Digit-character facts and `Number()` lemmas -/

namespace JsNum

theorem dropWhile_eq_self_of_false {p : Char → Bool} {l : List Char}
    (h : ∀ c ∈ l, p c = false) : l.dropWhile p = l := by
  cases l with
  | nil => rfl
  | cons a t =>
    rw [List.dropWhile_cons, h a (List.mem_cons_self a t)]
    rw [if_neg Bool.false_ne_true]

theorem digit_isDigit (c : Char)
    (hc : c ∈ ['0', '1', '2', '3', '4', '5', '6', '7', '8', '9']) : c.isDigit = true := by
  fin_cases hc <;> rfl

theorem digit_not_ws (c : Char)
    (hc : c ∈ ['0', '1', '2', '3', '4', '5', '6', '7', '8', '9']) :
    jsWhitespace c = false := by
  fin_cases hc <;> rfl

theorem digit_not_sign (c : Char)
    (hc : c ∈ ['0', '1', '2', '3', '4', '5', '6', '7', '8', '9']) :
    c ≠ '+' ∧ c ≠ '-' := by
  fin_cases hc <;> exact ⟨by decide, by decide⟩

theorem digit_ne_specials (c : Char)
    (hc : c ∈ ['0', '1', '2', '3', '4', '5', '6', '7', '8', '9']) :
    c ≠ '&' ∧ c ≠ '?' ∧ c ≠ '#' ∧ c ≠ '\n' := by
  fin_cases hc <;> exact ⟨by decide, by decide, by decide, by decide⟩

theorem digit_not_y (c : Char)
    (hc : c ∈ ['0', '1', '2', '3', '4', '5', '6', '7', '8', '9']) :
    ('y' == c) = false := by
  fin_cases hc <;> rfl

theorem stripSign_of_head (c0 : Char) (rest : List Char)
    (h1 : c0 ≠ '+') (h2 : c0 ≠ '-') : stripSign (c0 :: rest) = c0 :: rest := by
  unfold stripSign
  split
  · rename_i heq
    injection heq with hh _
    exact absurd hh h1
  · rename_i heq
    injection heq with hh _
    exact absurd hh h2
  · rfl

theorem decimalLit_digits (d : List Char) (hne : d ≠ [])
    (hd : ∀ c ∈ d, c.isDigit = true) : decimalLit d = true := by
  have htake : d.takeWhile Char.isDigit = d := List.takeWhile_eq_self_iff.mpr hd
  unfold decimalLit
  rw [htake, List.drop_length]
  rw [VideoUtils.isEmpty_false_of_ne_nil hne]
  rfl

theorem strNumeric_digits (d : List Char) (hne : d ≠ [])
    (hd : ∀ c ∈ d, c ∈ ['0', '1', '2', '3', '4', '5', '6', '7', '8', '9']) :
    strNumeric d = true := by
  have hdig : ∀ c ∈ d, c.isDigit = true := fun c hc => digit_isDigit c (hd c hc)
  have hw : ∀ c ∈ d, jsWhitespace c = false := fun c hc => digit_not_ws c (hd c hc)
  have htrim : jsTrim d = d := by
    unfold jsTrim
    rw [dropWhile_eq_self_of_false hw,
      dropWhile_eq_self_of_false (fun c hc => hw c (List.mem_reverse.mp hc)),
      List.reverse_reverse]
  obtain ⟨c0, rest, rfl⟩ : ∃ c0 rest, d = c0 :: rest := by
    cases d with
    | nil => exact absurd rfl hne
    | cons a t => exact ⟨a, t, rfl⟩
  have hsign := digit_not_sign c0 (hd c0 (List.mem_cons_self _ _))
  have hstrip : stripSign (c0 :: rest) = c0 :: rest :=
    stripSign_of_head c0 rest hsign.1 hsign.2
  have hdec : decimalLit (c0 :: rest) = true := decimalLit_digits _ (by simp) hdig
  unfold strNumeric
  rw [htrim, hstrip, hdec]
  simp

theorem jsIsNaN_digits (d : String) (hne : d.data ≠ [])
    (hd : ∀ c ∈ d.data, c ∈ ['0', '1', '2', '3', '4', '5', '6', '7', '8', '9']) :
    jsIsNaN d = false := by
  unfold jsIsNaN
  rw [strNumeric_digits d.data hne hd]
  rfl

end JsNum

/-! ### URL-parser lemmas for the claim inputs -/

namespace JsUrl

theorem takeWhile_path_eq_self (X : String)
    (hX : ∀ c ∈ X.data, c ≠ '?' ∧ c ≠ '#') :
    X.data.takeWhile (fun c => !(c = '?' || c = '#')) = X.data := by
  apply List.takeWhile_eq_self_iff.mpr
  intro c hc
  simp [(hX c hc).1, (hX c hc).2]

theorem dropWhile_path_eq_nil (X : String)
    (hX : ∀ c ∈ X.data, c ≠ '?' ∧ c ≠ '#') :
    X.data.dropWhile (fun c => !(c = '?' || c = '#')) = [] := by
  apply List.dropWhile_eq_nil_iff.mpr
  intro c hc
  simp [(hX c hc).1, (hX c hc).2]

theorem parseURL_watch (X : String)
    (hX : ∀ c ∈ X.data, c ≠ '&' ∧ c ≠ '?' ∧ c ≠ '#' ∧ c ≠ '\n') :
    parseURL ("https://youtube.com/watch?v=" ++ X) =
      some ⟨"youtube.com", "/watch", [("v", X)]⟩ := by
  have htakeq : ('v' :: '=' :: X.data).takeWhile (fun c => c ≠ '#') =
      'v' :: '=' :: X.data := by
    apply List.takeWhile_eq_self_iff.mpr
    intro c hc
    simp only [List.mem_cons] at hc
    rcases hc with rfl | rfl | hc
    · decide
    · decide
    · simp [(hX c hc).2.2.1]
  have hsplitq : splitOnChar '&' ('v' :: '=' :: X.data) = ['v' :: '=' :: X.data] := by
    apply splitOnChar_no_sep
    intro c hc
    simp only [List.mem_cons] at hc
    rcases hc with rfl | rfl | hc
    · decide
    · decide
    · exact (hX c hc).1
  have hq : parseQuery ('v' :: '=' :: X.data) = [("v", X)] := by
    unfold parseQuery
    rw [hsplitq]
    rfl
  calc parseURL ("https://youtube.com/watch?v=" ++ X)
      = some ⟨"youtube.com", "/watch",
          parseQuery (('v' :: '=' :: X.data).takeWhile (fun c => c ≠ '#'))⟩ := rfl
    _ = some ⟨"youtube.com", "/watch", [("v", X)]⟩ := by rw [htakeq, hq]

theorem parseURL_youtu_be (X : String)
    (hX : ∀ c ∈ X.data, c ≠ '?' ∧ c ≠ '#') :
    parseURL ("https://youtu.be/" ++ X) = some ⟨"youtu.be", ⟨'/' :: X.data⟩, []⟩ := by
  have hpath := takeWhile_path_eq_self X hX
  have hdrop := dropWhile_path_eq_nil X hX
  have hquery : queryOf ('/' :: X.data) = [] := by
    unfold queryOf
    rw [List.dropWhile_cons]
    rw [if_pos (by decide), hdrop]
  calc parseURL ("https://youtu.be/" ++ X)
      = some ⟨"youtu.be",
          ⟨'/' :: X.data.takeWhile (fun c => !(c = '?' || c = '#'))⟩,
          parseQuery (queryOf ('/' :: X.data))⟩ := rfl
    _ = some ⟨"youtu.be", ⟨'/' :: X.data⟩, []⟩ := by rw [hpath, hquery]; rfl

theorem parseURL_vimeo (d : String)
    (hd : ∀ c ∈ d.data, c ∈ ['0', '1', '2', '3', '4', '5', '6', '7', '8', '9']) :
    parseURL ("https://vimeo.com/" ++ d) = some ⟨"vimeo.com", ⟨'/' :: d.data⟩, []⟩ := by
  have hX : ∀ c ∈ d.data, c ≠ '?' ∧ c ≠ '#' := fun c hc =>
    ⟨(JsNum.digit_ne_specials c (hd c hc)).2.1, (JsNum.digit_ne_specials c (hd c hc)).2.2.1⟩
  have hpath := takeWhile_path_eq_self d hX
  have hdrop := dropWhile_path_eq_nil d hX
  have hquery : queryOf ('/' :: d.data) = [] := by
    unfold queryOf
    rw [List.dropWhile_cons]
    rw [if_pos (by decide), hdrop]
  calc parseURL ("https://vimeo.com/" ++ d)
      = some ⟨"vimeo.com",
          ⟨'/' :: d.data.takeWhile (fun c => !(c = '?' || c = '#'))⟩,
          parseQuery (queryOf ('/' :: d.data))⟩ := rfl
    _ = some ⟨"vimeo.com", ⟨'/' :: d.data⟩, []⟩ := by rw [hpath, hquery]; rfl

theorem parseURL_embed (X : String)
    (hX : ∀ c ∈ X.data, c ≠ '?' ∧ c ≠ '#') :
    parseURL ("https://youtube.com/embed/" ++ X) =
      some ⟨"youtube.com", ⟨'/' :: 'e' :: 'm' :: 'b' :: 'e' :: 'd' :: '/' :: X.data⟩, []⟩ := by
  have hpath := takeWhile_path_eq_self X hX
  have hdrop := dropWhile_path_eq_nil X hX
  have hquery : queryOf ('/' :: 'e' :: 'm' :: 'b' :: 'e' :: 'd' :: '/' :: X.data) = [] := by
    unfold queryOf
    iterate 7 rw [List.dropWhile_cons, if_pos (by decide)]
    rw [hdrop]
  calc parseURL ("https://youtube.com/embed/" ++ X)
      = some ⟨"youtube.com",
          ⟨'/' :: 'e' :: 'm' :: 'b' :: 'e' :: 'd' :: '/' ::
            X.data.takeWhile (fun c => !(c = '?' || c = '#'))⟩,
          parseQuery (queryOf ('/' :: 'e' :: 'm' :: 'b' :: 'e' :: 'd' :: '/' :: X.data))⟩ := rfl
    _ = _ := by rw [hpath, hquery]; rfl

end JsUrl

/-! ### Classification lemmas for `parseVideoUrl` -/

namespace VideoLib

open JsStr

theorem parseVideoUrl_watch (X : String) (hne : X.data ≠ [])
    (hX : ∀ c ∈ X.data, c ≠ '&' ∧ c ≠ '?' ∧ c ≠ '#' ∧ c ≠ '\n') :
    parseVideoUrl ("https://youtube.com/watch?v=" ++ X) =
      ⟨.youtube, some X, some ("https://www.youtube.com/embed/" ++ X),
        some ("https://img.youtube.com/vi/" ++ X ++ "/maxresdefault.jpg")⟩ := by
  have hurl := JsUrl.parseURL_watch X hX
  unfold parseVideoUrl
  rw [hurl]
  show classifyParsed ⟨"youtube.com", "/watch", [("v", X)]⟩ = _
  unfold classifyParsed
  have hcond : (jsIncludes (hostLower ⟨"youtube.com", "/watch", [("v", X)]⟩) "youtube.com" ||
      jsIncludes (hostLower ⟨"youtube.com", "/watch", [("v", X)]⟩) "youtu.be") = true ∧
      ytIdOf ⟨"youtube.com", "/watch", [("v", X)]⟩ ≠ "" :=
    ⟨rfl, fun h => hne (congrArg String.data h)⟩
  rw [if_pos hcond]
  exact rfl

theorem parseVideoUrl_youtu_be (X : String) (hne : X.data ≠ [])
    (hX : ∀ c ∈ X.data, c ≠ '&' ∧ c ≠ '?' ∧ c ≠ '#' ∧ c ≠ '\n') :
    parseVideoUrl ("https://youtu.be/" ++ X) =
      ⟨.youtube, some X, some ("https://www.youtube.com/embed/" ++ X),
        some ("https://img.youtube.com/vi/" ++ X ++ "/maxresdefault.jpg")⟩ := by
  have hurl := JsUrl.parseURL_youtu_be X (fun c hc => ⟨(hX c hc).2.1, (hX c hc).2.2.1⟩)
  unfold parseVideoUrl
  rw [hurl]
  show classifyParsed ⟨"youtu.be", ⟨'/' :: X.data⟩, []⟩ = _
  unfold classifyParsed
  have hcond : (jsIncludes (hostLower ⟨"youtu.be", ⟨'/' :: X.data⟩, []⟩) "youtube.com" ||
      jsIncludes (hostLower ⟨"youtu.be", ⟨'/' :: X.data⟩, []⟩) "youtu.be") = true ∧
      ytIdOf ⟨"youtu.be", ⟨'/' :: X.data⟩, []⟩ ≠ "" :=
    ⟨rfl, fun h => hne (congrArg String.data h)⟩
  rw [if_pos hcond]
  exact rfl

theorem parseVideoUrl_vimeo_digits (d : String) (hne : d.data ≠ [])
    (hd : ∀ c ∈ d.data, c ∈ ['0', '1', '2', '3', '4', '5', '6', '7', '8', '9']) :
    parseVideoUrl ("https://vimeo.com/" ++ d) =
      ⟨.vimeo, some d, some ("https://player.vimeo.com/video/" ++ d),
        some ("https://vumbnail.com/" ++ d ++ ".jpg")⟩ := by
  have hurl := JsUrl.parseURL_vimeo d hd
  have hnan : JsNum.jsIsNaN (vimeoIdOf ⟨"vimeo.com", ⟨'/' :: d.data⟩, []⟩) = false :=
    JsNum.jsIsNaN_digits ⟨d.data⟩ hne hd
  unfold parseVideoUrl
  rw [hurl]
  show classifyParsed ⟨"vimeo.com", ⟨'/' :: d.data⟩, []⟩ = _
  unfold classifyParsed
  have hnc : ¬((jsIncludes (hostLower ⟨"vimeo.com", ⟨'/' :: d.data⟩, []⟩) "youtube.com" ||
      jsIncludes (hostLower ⟨"vimeo.com", ⟨'/' :: d.data⟩, []⟩) "youtu.be") = true ∧
      ytIdOf ⟨"vimeo.com", ⟨'/' :: d.data⟩, []⟩ ≠ "") :=
    fun h => Bool.false_ne_true h.1
  rw [if_neg hnc]
  unfold vimeoOrRest
  have hpos : jsIncludes (hostLower ⟨"vimeo.com", ⟨'/' :: d.data⟩, []⟩) "vimeo.com" = true ∧
      vimeoIdOf ⟨"vimeo.com", ⟨'/' :: d.data⟩, []⟩ ≠ "" ∧
      (!(JsNum.jsIsNaN (vimeoIdOf ⟨"vimeo.com", ⟨'/' :: d.data⟩, []⟩))) = true :=
    ⟨rfl, fun h => hne (congrArg String.data h), by rw [hnan]; rfl⟩
  rw [if_pos hpos]
  exact rfl

theorem parseVideoUrl_embed_not_youtube (X : String)
    (hX : ∀ c ∈ X.data, c ≠ '?' ∧ c ≠ '#') :
    (parseVideoUrl ("https://youtube.com/embed/" ++ X)).type ≠ .youtube := by
  have hurl := JsUrl.parseURL_embed X hX
  unfold parseVideoUrl
  rw [hurl]
  show (classifyParsed
      ⟨"youtube.com", ⟨'/' :: 'e' :: 'm' :: 'b' :: 'e' :: 'd' :: '/' :: X.data⟩, []⟩).type ≠ _
  unfold classifyParsed
  have hnc : ¬((jsIncludes (hostLower
      ⟨"youtube.com", ⟨'/' :: 'e' :: 'm' :: 'b' :: 'e' :: 'd' :: '/' :: X.data⟩, []⟩)
        "youtube.com" ||
      jsIncludes (hostLower
      ⟨"youtube.com", ⟨'/' :: 'e' :: 'm' :: 'b' :: 'e' :: 'd' :: '/' :: X.data⟩, []⟩)
        "youtu.be") = true ∧
      ytIdOf ⟨"youtube.com", ⟨'/' :: 'e' :: 'm' :: 'b' :: 'e' :: 'd' :: '/' :: X.data⟩, []⟩
        ≠ "") :=
    fun h => h.2 rfl
  rw [if_neg hnc]
  unfold vimeoOrRest
  have hnc2 : ¬(jsIncludes (hostLower
      ⟨"youtube.com", ⟨'/' :: 'e' :: 'm' :: 'b' :: 'e' :: 'd' :: '/' :: X.data⟩, []⟩)
        "vimeo.com" = true ∧
      vimeoIdOf ⟨"youtube.com", ⟨'/' :: 'e' :: 'm' :: 'b' :: 'e' :: 'd' :: '/' :: X.data⟩, []⟩
        ≠ "" ∧
      (!(JsNum.jsIsNaN (vimeoIdOf
        ⟨"youtube.com", ⟨'/' :: 'e' :: 'm' :: 'b' :: 'e' :: 'd' :: '/' :: X.data⟩, []⟩)))
        = true) :=
    fun h => Bool.false_ne_true h.1
  rw [if_neg hnc2]
  cases hext : hasVideoExtension
      ⟨"youtube.com", ⟨'/' :: 'e' :: 'm' :: 'b' :: 'e' :: 'd' :: '/' :: X.data⟩, []⟩ with
  | false => simp [unknownPlatform]
  | true => simp

end VideoLib

/-! ### Claim theorems -/

/-- C2, counterexample: starting from a freshly mounted hook instance, a
click interaction (which arms a hide timer) followed by a ready/load
transition leaves TWO pending hide timers — `handleLoad` arms without
cancelling, contradicting "every operation that arms the hide timer first
cancels any pending hide timer". -/
theorem claim2_counterexample :
    ((UseVideoPlayer.handleLoad (UseVideoPlayer.handleVideoClick
        UseVideoPlayer.initialHookState) none).pendingTimers).length = 2 := by
  decide

/-- C2 (amended): `handleVideoClick` cancels the pending hide timer
tracked by `controlsTimeoutRef` before arming a new one, so from a state
with at most one tracked pending timer it leaves exactly the newly armed
timer pending; `handleLoad`, however, arms a new 3-second hide timer
without cancelling, growing the pending set by one. -/
theorem claim2_prop (s : UseVideoPlayer.HookState) (d : Option ℚ)
    (hinv : s.pendingTimers = [] ∨
      ∃ t, s.pendingTimers = [t] ∧ s.controlsTimeoutRef = some t) :
    (UseVideoPlayer.handleVideoClick s).pendingTimers = [s.nextTimerId] ∧
    (UseVideoPlayer.handleLoad s d).pendingTimers =
      s.pendingTimers ++ [s.nextTimerId] := by
  constructor
  · unfold UseVideoPlayer.handleVideoClick UseVideoPlayer.clearRefTimer
      UseVideoPlayer.armHideTimer
    rcases hinv with h | ⟨t, h, href⟩
    · cases hr : s.controlsTimeoutRef <;> simp [hr, h]
    · rw [href]
      simp [h]
  · unfold UseVideoPlayer.handleLoad UseVideoPlayer.armHideTimer
    rfl

/-- C2, witness: the amended theorem at the initial hook state. -/
theorem claim2_witness :
    (UseVideoPlayer.handleVideoClick UseVideoPlayer.initialHookState).pendingTimers = [0] ∧
    (UseVideoPlayer.handleLoad UseVideoPlayer.initialHookState none).pendingTimers = [0] :=
  claim2_prop UseVideoPlayer.initialHookState none (Or.inl rfl)

/-- C3, counterexample: with known duration 10, a seek to fraction 1.3
forwards 13 (> duration) to the adapter, and a seek to fraction -0.2
forwards -2 (< 0) — the handler does not clamp. -/
theorem claim3_counterexample :
    (UseVideoPlayer.handleSeek true
      { UseVideoPlayer.initialState with duration := 10 } (13/10)).2 = some 13 ∧
    ¬((13 : ℚ) ≤ 10) ∧
    (UseVideoPlayer.handleSeek true
      { UseVideoPlayer.initialState with duration := 10 } (-(1/5))).2 = some (-2) ∧
    ((-2 : ℚ) < 0) := by
  refine ⟨?_, by norm_num, ?_, by norm_num⟩
  · simp only [UseVideoPlayer.handleSeek, UseVideoPlayer.initialState]
    norm_num
  · simp only [UseVideoPlayer.handleSeek, UseVideoPlayer.initialState]
    norm_num

/-- C3 (amended): for a positive known duration, `handleSeek` forwards
exactly `seekTo * duration` (when a player is bound) with no clamping:
fractions within `[0,1]` produce a forwarded time within `[0, duration]`,
but a fraction below 0 forwards a negative time and a fraction above 1
forwards a time exceeding the duration. -/
theorem claim3_prop (hasPlayer : Bool) (s : UseVideoPlayer.VideoPlayerState) (f : ℚ)
    (hd : 0 < s.duration) :
    ((UseVideoPlayer.handleSeek hasPlayer s f).2 = some (f * s.duration) ∨
      (UseVideoPlayer.handleSeek hasPlayer s f).2 = none) ∧
    (0 ≤ f → f ≤ 1 → 0 ≤ f * s.duration ∧ f * s.duration ≤ s.duration) ∧
    (f < 0 → f * s.duration < 0) ∧
    (1 < f → s.duration < f * s.duration) := by
  refine ⟨?_, fun h0 h1 => ⟨mul_nonneg h0 hd.le, ?_⟩,
    fun hneg => mul_neg_of_neg_of_pos hneg hd, fun hg => ?_⟩
  · unfold UseVideoPlayer.handleSeek
    by_cases hp : hasPlayer = true ∧ 0 < s.duration
    · rw [if_pos hp]
      exact Or.inl rfl
    · rw [if_neg hp]
      exact Or.inr rfl
  · nlinarith
  · nlinarith

/-- C3, witness: the amended theorem at duration 10 and fraction 1/2. -/
theorem claim3_witness :
    (UseVideoPlayer.handleSeek true
        { UseVideoPlayer.initialState with duration := 10 } (1/2)).2 =
      some ((1/2 : ℚ) *
        ({ UseVideoPlayer.initialState with duration := 10 } :
          UseVideoPlayer.VideoPlayerState).duration) ∨
    (UseVideoPlayer.handleSeek true
        { UseVideoPlayer.initialState with duration := 10 } (1/2)).2 = none :=
  (claim3_prop true { UseVideoPlayer.initialState with duration := 10 } (1/2)
    (by norm_num [UseVideoPlayer.initialState])).1

/-- C6: whenever the modelled URL parser fails (the inputs on which
`new URL` throws), `parseVideoUrl` returns the `unknown` classification
with no video id, embed URL or thumbnail URL, instead of propagating the
parse error. -/
theorem claim6_prop (s : String) (h : JsUrl.parseURL s = none) :
    VideoLib.parseVideoUrl s = VideoLib.unknownPlatform ∧
    (VideoLib.parseVideoUrl s).type = .unknown ∧
    (VideoLib.parseVideoUrl s).videoId = none ∧
    (VideoLib.parseVideoUrl s).embedUrl = none ∧
    (VideoLib.parseVideoUrl s).thumbnailUrl = none := by
  have h0 : VideoLib.parseVideoUrl s = VideoLib.unknownPlatform := by
    unfold VideoLib.parseVideoUrl
    rw [h]
  refine ⟨h0, ?_, ?_, ?_, ?_⟩ <;> rw [h0] <;> rfl

/-- C6, witness: the malformed string `"not a url"`. -/
theorem claim6_witness :
    VideoLib.parseVideoUrl "not a url" = VideoLib.unknownPlatform ∧
    (VideoLib.parseVideoUrl "not a url").type = .unknown ∧
    (VideoLib.parseVideoUrl "not a url").videoId = none ∧
    (VideoLib.parseVideoUrl "not a url").embedUrl = none ∧
    (VideoLib.parseVideoUrl "not a url").thumbnailUrl = none :=
  claim6_prop "not a url" (by decide)

/-- C7: in both the `useVideoPlayer` hook and the `VimeoPlayer`
component, the volume-change handler invoked with value 0 yields
`muted = true`, and invoked with a value strictly greater than 0 while
muted yields `muted = false`. -/
theorem claim7_prop (s : UseVideoPlayer.VideoPlayerState)
    (vs : VimeoPlayer.VimeoState) (hasPlayer : Bool) (v : ℚ) :
    (v = 0 → (UseVideoPlayer.handleVolumeChange s v).muted = true ∧
      ((VimeoPlayer.handleVolumeChange hasPlayer vs v).1).muted = true) ∧
    (0 < v → s.muted = true → (UseVideoPlayer.handleVolumeChange s v).muted = false) ∧
    (0 < v → vs.muted = true →
      ((VimeoPlayer.handleVolumeChange hasPlayer vs v).1).muted = false) := by
  refine ⟨fun h0 => ⟨?_, ?_⟩, fun hv hm => ?_, fun hv hm => ?_⟩
  · simp [UseVideoPlayer.handleVolumeChange, h0]
  · simp [VimeoPlayer.handleVolumeChange, h0]
  · simp [UseVideoPlayer.handleVolumeChange, hv.ne', hm]
  · simp [VimeoPlayer.handleVolumeChange, hv.ne', hm]

/-- C7, witness: volume 0 mutes from the initial hook state; volume 1
unmutes the initially muted Vimeo component state. -/
theorem claim7_witness :
    (UseVideoPlayer.handleVolumeChange UseVideoPlayer.initialState 0).muted = true ∧
    ((VimeoPlayer.handleVolumeChange true VimeoPlayer.initialState 1).1).muted = false :=
  ⟨((claim7_prop UseVideoPlayer.initialState VimeoPlayer.initialState true 0).1 rfl).1,
    (claim7_prop UseVideoPlayer.initialState VimeoPlayer.initialState true 1).2.2
      (by decide) rfl⟩

/-- C10: `getVideoPlatform` is total with range
`{youtube, vimeo, direct}`: it never returns `unknown`, and whenever
neither the YouTube patterns nor the Vimeo pattern match (malformed URLs,
the empty string, URLs without a video extension included), it returns
`direct`. -/
theorem claim10_prop (url : String) :
    (VideoUtils.getVideoPlatform url = .youtube ∨
      VideoUtils.getVideoPlatform url = .vimeo ∨
      VideoUtils.getVideoPlatform url = .direct) ∧
    VideoUtils.getVideoPlatform url ≠ .unknown ∧
    (VideoUtils.isYouTubeUrl url = false → VideoUtils.isVimeoUrl url = false →
      VideoUtils.getVideoPlatform url = .direct) := by
  have htotal : VideoUtils.getVideoPlatform url = .youtube ∨
      VideoUtils.getVideoPlatform url = .vimeo ∨
      VideoUtils.getVideoPlatform url = .direct := by
    unfold VideoUtils.getVideoPlatform
    by_cases h1 : VideoUtils.isYouTubeUrl url = true
    · rw [if_pos h1]
      exact Or.inl rfl
    · rw [if_neg h1]
      by_cases h2 : VideoUtils.isVimeoUrl url = true
      · rw [if_pos h2]
        exact Or.inr (Or.inl rfl)
      · rw [if_neg h2]
        exact Or.inr (Or.inr rfl)
  refine ⟨htotal, ?_, fun h1 h2 => ?_⟩
  · rcases htotal with h | h | h <;> rw [h] <;> decide
  · unfold VideoUtils.getVideoPlatform
    rw [h1, if_neg Bool.false_ne_true, h2, if_neg Bool.false_ne_true]

/-- C10, witness: the empty string is classified `direct`. -/
theorem claim10_witness : VideoUtils.getVideoPlatform "" = .direct :=
  (claim10_prop "").2.2 (by decide) (by decide)

/-- C1, counterexample: `generateVideoThumbnail` REJECTS (does not
resolve) for a non-direct platform URL and for a malformed URL — the
promise executor's first branch calls `reject(new Error('Not a direct
video file'))` — contradicting "settles by resolving ... and never
rejects or throws". -/
theorem claim1_counterexample :
    VideoLib.generateVideoThumbnail ⟨"localhost", .loadError⟩
      "https://youtube.com/watch?v=abc" = .error "Not a direct video file" ∧
    VideoLib.generateVideoThumbnail ⟨"localhost", .loadError⟩
      "not a url" = .error "Not a direct video file" := by
  exact ⟨by decide, by decide⟩

/-- C1 (amended): `generateVideoThumbnail` is not total. It rejects with
`'Not a direct video file'` for every input that does not classify as a
direct file (platform URLs, malformed URLs, unknown URLs); for a direct
file it resolves to the placeholder graphic when the source is
cross-origin (not the window's host, not localhost/127.0.0.1) or when the
video element errors while loading metadata, resolves to the captured
frame's data URI on a successful capture, but REJECTS again when the
canvas 2d context is unavailable or the draw/encode throws. -/
theorem claim1_prop (env : VideoLib.ThumbEnv) (url : String) :
    ((VideoLib.parseVideoUrl url).type ≠ .direct →
      VideoLib.generateVideoThumbnail env url = .error "Not a direct video file") ∧
    (∀ u, (VideoLib.parseVideoUrl url).type = .direct → JsUrl.parseURL url = some u →
      u.hostname ≠ env.windowHostname →
      JsStr.jsIncludes u.hostname "localhost" = false →
      JsStr.jsIncludes u.hostname "127.0.0.1" = false →
      VideoLib.generateVideoThumbnail env url = .ok VideoLib.placeholderDataUri) ∧
    (∀ u, (VideoLib.parseVideoUrl url).type = .direct → JsUrl.parseURL url = some u →
      ¬(u.hostname ≠ env.windowHostname ∧
        (!(JsStr.jsIncludes u.hostname "localhost")) = true ∧
        (!(JsStr.jsIncludes u.hostname "127.0.0.1")) = true) →
      ((env.event = .loadError →
        VideoLib.generateVideoThumbnail env url = .ok VideoLib.placeholderDataUri) ∧
      (∀ canvasThrows dataUrl, env.event = .seeked false canvasThrows dataUrl →
        VideoLib.generateVideoThumbnail env url =
          .error "Could not get canvas context") ∧
      (∀ dataUrl, env.event = .seeked true true dataUrl →
        VideoLib.generateVideoThumbnail env url =
          .error "canvas draw or encode error") ∧
      (∀ dataUrl, env.event = .seeked true false dataUrl →
        VideoLib.generateVideoThumbnail env url = .ok dataUrl))) := by
  refine ⟨fun hnd => ?_, fun u htype hparse h1 h2 h3 => ?_, fun u htype hparse hext => ?_⟩
  · unfold VideoLib.generateVideoThumbnail
    rw [if_pos hnd]
  · unfold VideoLib.generateVideoThumbnail
    rw [if_neg (fun hn => hn htype), hparse]
    show VideoLib.captureForParsed env u = _
    unfold VideoLib.captureForParsed
    rw [if_pos ⟨h1, by rw [h2]; rfl, by rw [h3]; rfl⟩]
  · have hbase : VideoLib.generateVideoThumbnail env url =
        VideoLib.captureForParsed env u := by
      unfold VideoLib.generateVideoThumbnail
      rw [if_neg (fun hn => hn htype), hparse]
    refine ⟨fun hev => ?_, fun canvasThrows dataUrl hev => ?_,
      fun dataUrl hev => ?_, fun dataUrl hev => ?_⟩
    all_goals
      rw [hbase]
      unfold VideoLib.captureForParsed
      rw [if_neg hext, hev]
      try exact rfl

/-- C1, witness: a cross-origin direct `.mp4` resolves to the
placeholder. -/
theorem claim1_witness :
    VideoLib.generateVideoThumbnail ⟨"app.example.org", .loadError⟩
      "https://cdn.other.net/a.mp4" = .ok VideoLib.placeholderDataUri :=
  (claim1_prop ⟨"app.example.org", .loadError⟩ "https://cdn.other.net/a.mp4").2.1
    ⟨"cdn.other.net", "/a.mp4", []⟩ (by decide) (by decide) (by decide) (by decide)
    (by decide)

/-- C8: the pagination computed by `getVideosPaginated` for a normalized
total of 20 and limit 12 has `hasNext = true` at page 1 and
`hasNext = false` at page 2; in general, for positive limit, `hasNext`
holds exactly when `page < ceil(total / limit)`, equivalently when
`page * limit < total`. -/
theorem claim8_prop :
    (ApiClient.getVideosPaginatedPagination 1 12 20).hasNext = true ∧
    (ApiClient.getVideosPaginatedPagination 2 12 20).hasNext = false ∧
    ∀ page limit total : ℕ, 0 < limit →
      (((ApiClient.getVideosPaginatedPagination page limit total).hasNext = true ↔
        (page : ℤ) < ⌈(total : ℚ) / (limit : ℚ)⌉) ∧
      ((ApiClient.getVideosPaginatedPagination page limit total).hasNext = true ↔
        page * limit < total)) := by
  refine ⟨?_, ?_, fun page limit total hl => ⟨?_, ?_⟩⟩
  · have h : ⌈((20 : ℕ) : ℚ) / ((12 : ℕ) : ℚ)⌉ = 2 := by
      rw [Int.ceil_eq_iff]
      constructor <;> push_cast <;> norm_num
    simp only [ApiClient.getVideosPaginatedPagination, h, decide_eq_true_eq]
    norm_num
  · have h : ⌈((20 : ℕ) : ℚ) / ((12 : ℕ) : ℚ)⌉ = 2 := by
      rw [Int.ceil_eq_iff]
      constructor <;> push_cast <;> norm_num
    simp only [ApiClient.getVideosPaginatedPagination, h, decide_eq_false_iff_not]
    norm_num
  · simp only [ApiClient.getVideosPaginatedPagination, decide_eq_true_eq]
  · simp only [ApiClient.getVideosPaginatedPagination, decide_eq_true_eq]
    rw [Int.lt_ceil]
    have hl' : (0 : ℚ) < (limit : ℚ) := by exact_mod_cast hl
    rw [lt_div_iff₀ hl']
    push_cast
    exact_mod_cast Iff.rfl

/-- C8, witness: the general characterization at page 3, limit 4,
total 20 (`hasNext` is false there: 3·4 ≥ 20 fails... 12 < 20 holds). -/
theorem claim8_witness :
    ((ApiClient.getVideosPaginatedPagination 3 4 20).hasNext = true ↔
      (3 : ℤ) < ⌈((20 : ℕ) : ℚ) / ((4 : ℕ) : ℚ)⌉) ∧
    ((ApiClient.getVideosPaginatedPagination 3 4 20).hasNext = true ↔
      3 * 4 < 20) :=
  claim8_prop.2.2 3 4 20 (by decide)

/-- C9: on every non-2xx response `request` throws a typed `AppError`
(it never returns normally): on status 422 with the structured FastAPI
body it throws a `VALIDATION_ERROR` whose message joins the per-field
`loc.join('.') + ': ' + msg` entries with `', '`; on any other non-2xx
status it throws an `API_ERROR` carrying that HTTP status. -/
theorem claim9_prop (r : ApiClient.HttpResponse)
    (hnok : ApiClient.responseOk r = false) :
    (∃ e, ApiClient.request r = .error e) ∧
    (∀ detail, r.status = 422 → r.body = .validationJson detail →
      ApiClient.request r =
        .error ⟨ApiClient.validationMessage detail, "VALIDATION_ERROR", 422⟩) ∧
    (r.status ≠ 422 →
      ApiClient.request r =
        .error ⟨"HTTP " ++ toString r.status ++ ": " ++ r.statusText,
          "API_ERROR", r.status⟩) := by
  refine ⟨?_, fun detail h4 hb => ?_, fun h4 => ?_⟩
  · by_cases h4 : r.status = 422
    · cases hb : r.body with
      | validationJson detail =>
        refine ⟨⟨ApiClient.validationMessage detail, "VALIDATION_ERROR", 422⟩, ?_⟩
        unfold ApiClient.request ApiClient.requestTry
        rw [hnok, if_neg Bool.false_ne_true, if_pos h4, hb]
        exact rfl
      | otherJson raw =>
        refine ⟨⟨"Cannot read properties of undefined (reading 'map')",
          "UNKNOWN_ERROR", 500⟩, ?_⟩
        unfold ApiClient.request ApiClient.requestTry
        rw [hnok, if_neg Bool.false_ne_true, if_pos h4, hb]
        exact rfl
      | text raw =>
        refine ⟨⟨"Unexpected token in JSON", "UNKNOWN_ERROR", 500⟩, ?_⟩
        unfold ApiClient.request ApiClient.requestTry
        rw [hnok, if_neg Bool.false_ne_true, if_pos h4, hb]
        exact rfl
    · refine ⟨⟨"HTTP " ++ toString r.status ++ ": " ++ r.statusText,
        "API_ERROR", r.status⟩, ?_⟩
      unfold ApiClient.request ApiClient.requestTry
      rw [hnok, if_neg Bool.false_ne_true, if_neg h4]
      exact rfl
  · unfold ApiClient.request ApiClient.requestTry
    rw [hnok, if_neg Bool.false_ne_true, if_pos h4, hb]
    exact rfl
  · unfold ApiClient.request ApiClient.requestTry
    rw [hnok, if_neg Bool.false_ne_true, if_neg h4]
    exact rfl

/-- C9, witness: a 404 yields the generic `API_ERROR` with status 404. -/
theorem claim9_witness :
    ApiClient.request ⟨404, "Not Found", .text "x"⟩ =
      .error ⟨"HTTP 404: Not Found", "API_ERROR", 404⟩ :=
  (claim9_prop ⟨404, "Not Found", .text "x"⟩ (by decide)).2.2 (by decide)

/-- C4, counterexample: `parseVideoUrl` classifies the embed-form URL
`https://youtube.com/embed/dQw4w9WgXcQ` as `unknown`, not `youtube` — it
has no `/embed/` branch (only `youtu.be` paths and `/watch?v=`). -/
theorem claim4_counterexample :
    VideoLib.parseVideoUrl "https://youtube.com/embed/dQw4w9WgXcQ" =
      VideoLib.unknownPlatform ∧
    (VideoLib.parseVideoUrl "https://youtube.com/embed/dQw4w9WgXcQ").type ≠
      VideoUtils.PlatformType.youtube := by
  exact ⟨by decide, by decide⟩

/-- C4 (amended): for every nonempty identifier X without `&`, `?`, `#`
or newline, `extractYouTubeVideoId` (and hence `getVideoPlatform`)
classifies all three URL forms (`watch?v=X`, `youtu.be/X`, `embed/X`) as
YouTube with id X; `parseVideoUrl` does so for the `watch?v=` and
`youtu.be` forms, but never classifies the `embed` form as YouTube. -/
theorem claim4_prop (X : String) (hne : X.data ≠ [])
    (hX : ∀ c ∈ X.data, c ≠ '&' ∧ c ≠ '?' ∧ c ≠ '#' ∧ c ≠ '\n') :
    VideoUtils.extractYouTubeVideoId ("https://youtube.com/watch?v=" ++ X) = some X ∧
    VideoUtils.extractYouTubeVideoId ("https://youtu.be/" ++ X) = some X ∧
    VideoUtils.extractYouTubeVideoId ("https://youtube.com/embed/" ++ X) = some X ∧
    VideoUtils.getVideoPlatform ("https://youtube.com/watch?v=" ++ X) = .youtube ∧
    VideoUtils.getVideoPlatform ("https://youtu.be/" ++ X) = .youtube ∧
    VideoUtils.getVideoPlatform ("https://youtube.com/embed/" ++ X) = .youtube ∧
    VideoLib.parseVideoUrl ("https://youtube.com/watch?v=" ++ X) =
      ⟨.youtube, some X, some ("https://www.youtube.com/embed/" ++ X),
        some ("https://img.youtube.com/vi/" ++ X ++ "/maxresdefault.jpg")⟩ ∧
    VideoLib.parseVideoUrl ("https://youtu.be/" ++ X) =
      ⟨.youtube, some X, some ("https://www.youtube.com/embed/" ++ X),
        some ("https://img.youtube.com/vi/" ++ X ++ "/maxresdefault.jpg")⟩ ∧
    (VideoLib.parseVideoUrl ("https://youtube.com/embed/" ++ X)).type ≠ .youtube := by
  have e1 := VideoUtils.extractYouTubeVideoId_watch X hne hX
  have e2 := VideoUtils.extractYouTubeVideoId_youtu_be X hne hX
  have e3 := VideoUtils.extractYouTubeVideoId_embed X hne hX
  have g : ∀ url : String, VideoUtils.extractYouTubeVideoId url = some X →
      VideoUtils.getVideoPlatform url = .youtube := by
    intro url he
    have hy : VideoUtils.isYouTubeUrl url = true := by
      unfold VideoUtils.isYouTubeUrl
      rw [he]
      rfl
    unfold VideoUtils.getVideoPlatform
    rw [hy, if_pos rfl]
  exact ⟨e1, e2, e3, g _ e1, g _ e2, g _ e3,
    VideoLib.parseVideoUrl_watch X hne hX,
    VideoLib.parseVideoUrl_youtu_be X hne hX,
    VideoLib.parseVideoUrl_embed_not_youtube X
      (fun c hc => ⟨(hX c hc).2.1, (hX c hc).2.2.1⟩)⟩

/-- C4, witness: the amended theorem at X = dQw4w9WgXcQ. -/
theorem claim4_witness :
    VideoUtils.extractYouTubeVideoId
      ("https://youtube.com/watch?v=" ++ "dQw4w9WgXcQ") = some "dQw4w9WgXcQ" ∧
    VideoUtils.extractYouTubeVideoId
      ("https://youtu.be/" ++ "dQw4w9WgXcQ") = some "dQw4w9WgXcQ" ∧
    VideoUtils.extractYouTubeVideoId
      ("https://youtube.com/embed/" ++ "dQw4w9WgXcQ") = some "dQw4w9WgXcQ" ∧
    VideoUtils.getVideoPlatform
      ("https://youtube.com/watch?v=" ++ "dQw4w9WgXcQ") = .youtube ∧
    VideoUtils.getVideoPlatform ("https://youtu.be/" ++ "dQw4w9WgXcQ") = .youtube ∧
    VideoUtils.getVideoPlatform
      ("https://youtube.com/embed/" ++ "dQw4w9WgXcQ") = .youtube ∧
    VideoLib.parseVideoUrl ("https://youtube.com/watch?v=" ++ "dQw4w9WgXcQ") =
      ⟨.youtube, some "dQw4w9WgXcQ",
        some ("https://www.youtube.com/embed/" ++ "dQw4w9WgXcQ"),
        some ("https://img.youtube.com/vi/" ++ "dQw4w9WgXcQ" ++ "/maxresdefault.jpg")⟩ ∧
    VideoLib.parseVideoUrl ("https://youtu.be/" ++ "dQw4w9WgXcQ") =
      ⟨.youtube, some "dQw4w9WgXcQ",
        some ("https://www.youtube.com/embed/" ++ "dQw4w9WgXcQ"),
        some ("https://img.youtube.com/vi/" ++ "dQw4w9WgXcQ" ++ "/maxresdefault.jpg")⟩ ∧
    (VideoLib.parseVideoUrl
      ("https://youtube.com/embed/" ++ "dQw4w9WgXcQ")).type ≠ .youtube :=
  claim4_prop "dQw4w9WgXcQ" (by decide) (by decide)

/-- C5: `parseVideoUrl` classifies `https://vimeo.com/<digits>` as Vimeo
with the digits as the id (with the derived embed and thumbnail URLs),
`getVideoPlatform` agrees, and the non-numeric segment
`https://vimeo.com/abc` classifies as `unknown`. -/
theorem claim5_prop (d : String) (hne : d.data ≠ [])
    (hd : ∀ c ∈ d.data, c ∈ ['0', '1', '2', '3', '4', '5', '6', '7', '8', '9']) :
    VideoLib.parseVideoUrl ("https://vimeo.com/" ++ d) =
      ⟨.vimeo, some d, some ("https://player.vimeo.com/video/" ++ d),
        some ("https://vumbnail.com/" ++ d ++ ".jpg")⟩ ∧
    VideoUtils.getVideoPlatform ("https://vimeo.com/" ++ d) = .vimeo ∧
    VideoLib.parseVideoUrl "https://vimeo.com/abc" = VideoLib.unknownPlatform := by
  refine ⟨VideoLib.parseVideoUrl_vimeo_digits d hne hd, ?_, by decide⟩
  have hnoy : ∀ c ∈ ("https://vimeo.com/" ++ d).data, ('y' == c) = false := by
    have hdata : ("https://vimeo.com/" ++ d).data =
        'h' :: 't' :: 't' :: 'p' :: 's' :: ':' :: '/' :: '/' ::
        'v' :: 'i' :: 'm' :: 'e' :: 'o' :: '.' :: 'c' :: 'o' :: 'm' :: '/' :: d.data := rfl
    intro c hc
    rw [hdata] at hc
    simp only [List.mem_cons] at hc
    rcases hc with rfl | rfl | rfl | rfl | rfl | rfl | rfl | rfl | rfl | rfl | rfl |
      rfl | rfl | rfl | rfl | rfl | rfl | rfl | hc
    all_goals first
    | rfl
    | exact JsNum.digit_not_y c (hd c hc)
  have hyt : VideoUtils.isYouTubeUrl ("https://vimeo.com/" ++ d) = false := by
    unfold VideoUtils.isYouTubeUrl
    rw [VideoUtils.extractYouTubeVideoId_none_no_y _ hnoy]
    rfl
  have hdig : ∀ c ∈ d.data, c.isDigit = true :=
    fun c hc => JsNum.digit_isDigit c (hd c hc)
  have hvim : VideoUtils.isVimeoUrl ("https://vimeo.com/" ++ d) = true := by
    unfold VideoUtils.isVimeoUrl VideoUtils.extractVimeoVideoId
    rw [VideoUtils.vimeoCapture_digits d hne hdig]
    rfl
  unfold VideoUtils.getVideoPlatform
  rw [hyt, if_neg Bool.false_ne_true, hvim, if_pos rfl]

/-- C5, witness: the theorem at the id 123456. -/
theorem claim5_witness :
    VideoLib.parseVideoUrl ("https://vimeo.com/" ++ "123456") =
      ⟨.vimeo, some "123456", some ("https://player.vimeo.com/video/" ++ "123456"),
        some ("https://vumbnail.com/" ++ "123456" ++ ".jpg")⟩ ∧
    VideoUtils.getVideoPlatform ("https://vimeo.com/" ++ "123456") = .vimeo ∧
    VideoLib.parseVideoUrl "https://vimeo.com/abc" = VideoLib.unknownPlatform :=
  claim5_prop "123456" (by decide) (by decide)
